import Mathlib

set_option maxRecDepth 100000

/-!
Verification of the heuristic resume/job matching engine
(`enhanced_analyzer.py`) against its natural-language specification.

Shallow embedding conventions:
* Python strings are modelled as `List Char` (or Lean `String` at the API
  surface); `str.lower` is modelled by `Char.toLower` (exact on the ASCII
  range, which covers the whole skill/pattern catalog).
* Python floats are modelled as exact rationals (`ℚ`); the `round(x, 1)`
  applied by the code when filling the user-facing result dictionary is a
  reporting-time operation (spec section 4.3: internal combination uses full
  precision) and is not modelled.
* Python regexes used by the analyzer are hand-compiled to deterministic
  matchers.  Every regex in the catalog is backtracking-free except for the
  explicitly optional groups, whose two alternatives are tried in the same
  greedy order as the regex engine.
* Python sets of strings are modelled as `Finset String`; where the code
  materialises a set into a list (`list(s)`, `sorted(s, ...)`) the iteration
  order of a CPython set is not determined by the language (string hashing is
  seed-randomised), so list representatives are produced in a canonical
  sorted order and nothing is proved about those orders.
* The fallible analyzer entry points return `Except`.
-/

/-! ## Character classes (ASCII fragment of the Python definitions) -/

/-- Python regex `\w` (word character), ASCII range: letter, digit or `_`. -/
def wordChar (c : Char) : Bool := c.isAlphanum || c = '_'

/-- Python regex `\s` / `str.split()` / `str.strip()` whitespace, ASCII range. -/
def pySpace (c : Char) : Bool :=
  c = ' ' || c = '\t' || c = '\n' || c = '\r' || c = '\x0b' || c = '\x0c'

/-- Python regex `[a-zA-Z]`. -/
def asciiAlpha (c : Char) : Bool := c.isAlpha

/-- `str.lower()` on a character sequence (ASCII case mapping). -/
def lowerL (l : List Char) : List Char := l.map Char.toLower

/-- `str.strip()`: drop leading and trailing whitespace. -/
def pyStrip (l : List Char) : List Char :=
  ((l.dropWhile pySpace).reverse.dropWhile pySpace).reverse

/-! ## Literal matching primitives -/

/-- Match the literal `s` as a prefix of `u`; on success return the rest. -/
def litL : List Char → List Char → Option (List Char)
  | [], u => some u
  | _ :: _, [] => none
  | c :: cs, x :: xs => if c = x then litL cs xs else none

/-- `pat in text` (Python substring containment). -/
def containsSub (pat t : List Char) : Bool :=
  (List.range (t.length + 1)).any fun i => (litL pat (t.drop i)).isSome

/-! ## The `\b literal \b` regex engine used by `_analyze_skills`,
`_analyze_education` and the education-pattern variants.

`re.search(r'\b' + re.escape(word) + r'\b', text)`: the pattern matches at
position `i` iff `word` is a prefix of `text[i:]` and a word/non-word
transition (`\b`) occurs both at `i` and at `i + len(word)`.  Out-of-range
positions count as non-word. -/

/-- The word-character status of position `p` of `t` (out of range: false). -/
def wcAt (t : List Char) (p : Nat) : Bool := wordChar (t.getD p ' ')

/-- Python regex `\b` at position `p` of `t`. -/
def bnd (t : List Char) (p : Nat) : Bool :=
  match p with
  | 0 => wcAt t 0
  | q + 1 => wcAt t q != wcAt t (q + 1)

/-- `\b s \b` matches `t` at position `i`. -/
def matchAt (s t : List Char) (i : Nat) : Bool :=
  (litL s (t.drop i)).isSome && bnd t i && bnd t (i + s.length)

/-- `re.search(r'\b' + re.escape(s) + r'\b', t)` succeeds somewhere in `t`. -/
def reSearchWord (s t : List Char) : Bool :=
  (List.range (t.length + 1)).any (matchAt s t)

/-! ## Spec-side notion of a standalone (whole-word) occurrence.

Modelled from the claim text: the skill occurs with no word character
immediately before it and no word character immediately after it
("standalone whole word", "not embedded in a longer word"). -/

/-- `s` occurs at `i` in `t` with no adjacent word character on either side. -/
def standaloneAt (s t : List Char) (i : Nat) : Bool :=
  (litL s (t.drop i)).isSome
    && (decide (i = 0) || !wcAt t (i - 1))
    && !wcAt t (i + s.length)

/-- `s` occurs somewhere in `t` as a standalone whole word. -/
def occursStandalone (s t : List Char) : Bool :=
  (List.range (t.length + 1)).any (standaloneAt s t)

/-! ## Hand-compiled experience regexes (`_analyze_experience`,
`_extract_required_experience`).

Each matcher takes the text at a candidate start position and returns the
integer captures together with the rest of the text after the match, or
`none`.  `re.findall` is modelled by `reFindAll`: scan left to right, on a
match emit the captures and continue after the consumed part, otherwise
advance one character (matches always consume at least one character). -/

/-- Greedy `(\d+)`: maximal nonempty digit run, returned as a number. -/
def takeDigits (l : List Char) : Option (Nat × List Char) :=
  let ds := l.takeWhile Char.isDigit
  if ds.isEmpty then none
  else some (ds.foldl (fun n c => 10 * n + (c.toNat - 48)) 0, l.dropWhile Char.isDigit)

/-- Greedy `\s*`. -/
def skipWs (l : List Char) : List Char := l.dropWhile pySpace

/-- `[\+]?`: skip one leading `+` if present. -/
def optPlus : List Char → List Char
  | '+' :: r => r
  | l => l

/-- `s?`: skip one leading `s` if present. -/
def optEss : List Char → List Char
  | 's' :: r => r
  | l => l

/-- `(?:years?|yrs?)` (the two alternatives are mutually exclusive). -/
def yearsTok (l : List Char) : Option (List Char) :=
  match litL "year".toList l with
  | some r => some (optEss r)
  | none =>
    match litL "yr".toList l with
    | some r => some (optEss r)
    | none => none

/-- `(?:year|yr)` (no optional `s`). -/
def yearTok (l : List Char) : Option (List Char) :=
  match litL "year".toList l with
  | some r => some r
  | none => litL "yr".toList l

/-- `(?:experience|exp)`, alternatives tried in regex order. -/
def expTok (l : List Char) : Option (List Char) :=
  match litL "experience".toList l with
  | some r => some r
  | none => litL "exp".toList l

/-- `(?:of\s*)?(?:experience|exp)` with the regex's greedy backtracking. -/
def ofExpTok (l : List Char) : Option (List Char) :=
  match (match litL "of".toList l with
         | some r => expTok (skipWs r)
         | none => none) with
  | some r => some r
  | none => expTok l

/-- `(?:in|with|of)` (first characters distinct). -/
def inWithOfTok (l : List Char) : Option (List Char) :=
  match litL "in".toList l with
  | some r => some r
  | none =>
    match litL "with".toList l with
    | some r => some r
    | none => litL "of".toList l

/-- `(?:to|\-)`. -/
def toDashTok (l : List Char) : Option (List Char) :=
  match litL "to".toList l with
  | some r => some r
  | none => litL "-".toList l

/-- Resume pattern 1 / job pattern 1:
`(\d+)[\+]?\s*(?:years?|yrs?)\s*(?:of\s*)?(?:experience|exp)`. -/
def expPat1 (l : List Char) : Option (List Nat × List Char) := do
  let (n, r1) ← takeDigits l
  let r2 := skipWs (optPlus r1)
  let r3 ← yearsTok r2
  let r4 ← ofExpTok (skipWs r3)
  return ([n], r4)

/-- Resume pattern 2: `(\d+)[\+]?\s*(?:year|yr)\s*(?:experience|exp)`. -/
def expPat2 (l : List Char) : Option (List Nat × List Char) := do
  let (n, r1) ← takeDigits l
  let r2 := skipWs (optPlus r1)
  let r3 ← yearTok r2
  let r4 ← expTok (skipWs r3)
  return ([n], r4)

/-- Resume pattern 3: `experience[:\s]*(\d+)[\+]?\s*(?:years?|yrs?)`. -/
def expPat3 (l : List Char) : Option (List Nat × List Char) := do
  let r1 ← litL "experience".toList l
  let r2 := r1.dropWhile fun c => c = ':' || pySpace c
  let (n, r3) ← takeDigits r2
  let r4 ← yearsTok (skipWs (optPlus r3))
  return ([n], r4)

/-- Resume pattern 4: `(\d+)[\+]?\s*(?:years?|yrs?)\s*(?:in|with|of)`. -/
def expPat4 (l : List Char) : Option (List Nat × List Char) := do
  let (n, r1) ← takeDigits l
  let r2 ← yearsTok (skipWs (optPlus r1))
  let r3 ← inWithOfTok (skipWs r2)
  return ([n], r3)

/-- Resume pattern 5: `over\s*(\d+)\s*(?:years?|yrs?)`. -/
def expPat5 (l : List Char) : Option (List Nat × List Char) := do
  let r1 ← litL "over".toList l
  let (n, r2) ← takeDigits (skipWs r1)
  let r3 ← yearsTok (skipWs r2)
  return ([n], r3)

/-- Resume pattern 6: `more than\s*(\d+)\s*(?:years?|yrs?)`. -/
def expPat6 (l : List Char) : Option (List Nat × List Char) := do
  let r1 ← litL "more than".toList l
  let (n, r2) ← takeDigits (skipWs r1)
  let r3 ← yearsTok (skipWs r2)
  return ([n], r3)

/-- Job pattern 2: `minimum\s*(\d+)\s*(?:years?|yrs?)`. -/
def jobPat2 (l : List Char) : Option (List Nat × List Char) := do
  let r1 ← litL "minimum".toList l
  let (n, r2) ← takeDigits (skipWs r1)
  let r3 ← yearsTok (skipWs r2)
  return ([n], r3)

/-- Job pattern 3: `at least\s*(\d+)\s*(?:years?|yrs?)`. -/
def jobPat3 (l : List Char) : Option (List Nat × List Char) := do
  let r1 ← litL "at least".toList l
  let (n, r2) ← takeDigits (skipWs r1)
  let r3 ← yearsTok (skipWs r2)
  return ([n], r3)

/-- Job pattern 4: `(\d+)[\+]?\s*(?:to|\-)\s*(\d+)\s*(?:years?|yrs?)`
(two capture groups; `re.findall` yields the tuple and the code adds both). -/
def jobPat4 (l : List Char) : Option (List Nat × List Char) := do
  let (n1, r1) ← takeDigits l
  let r2 ← toDashTok (skipWs (optPlus r1))
  let (n2, r3) ← takeDigits (skipWs r2)
  let r4 ← yearsTok (skipWs r3)
  return ([n1, n2], r4)

/-- `re.findall` scan: fuelled by the text length (every successful match
consumes at least one character, so the fuel is never exhausted early). -/
def reFindAllAux (m : List Char → Option (List Nat × List Char)) :
    Nat → List Char → List Nat
  | 0, _ => []
  | _ + 1, [] => []
  | fuel + 1, l =>
    match m l with
    | some (vs, r) => vs ++ reFindAllAux m fuel r
    | none => reFindAllAux m fuel l.tail

/-- All integer captures of pattern `m` over `l`, in scan order. -/
def reFindAll (m : List Char → Option (List Nat × List Char))
    (l : List Char) : List Nat :=
  reFindAllAux m l.length l

/-- All captures of the six resume experience regexes, pattern by pattern. -/
def resumeExpCaptures (t : List Char) : List Nat :=
  reFindAll expPat1 t ++ reFindAll expPat2 t ++ reFindAll expPat3 t ++
  reFindAll expPat4 t ++ reFindAll expPat5 t ++ reFindAll expPat6 t

/-- All captures of the four job experience regexes, pattern by pattern. -/
def jobExpCaptures (t : List Char) : List Nat :=
  reFindAll expPat1 t ++ reFindAll jobPat2 t ++ reFindAll jobPat3 t ++
  reFindAll jobPat4 t

/-- `max(years) if years else 0` (`_analyze_experience`). -/
def pyMaxNat : List Nat → Nat
  | [] => 0
  | y :: ys => ys.foldl Nat.max y

/-- `min(years) if years else 0` (`_extract_required_experience`). -/
def pyMinNat : List Nat → Nat
  | [] => 0
  | y :: ys => ys.foldl Nat.min y

/-- `_analyze_experience`: maximum capture over the lower-cased text. -/
def analyzeExperienceYears (t : List Char) : Nat := pyMaxNat (resumeExpCaptures t)

/-- `_extract_required_experience`: minimum capture over the lower-cased text. -/
def extractRequiredExperience (t : List Char) : Nat := pyMinNat (jobExpCaptures t)

/-! ## The skill catalog (`_initialize_skill_databases`), transcribed from the
source lists in order. -/

def programmingLanguages : List String :=
  ["python", "java", "javascript", "typescript", "c++", "c#", "php", "ruby", "go",
   "rust", "swift", "kotlin", "scala", "r", "matlab", "perl", "shell", "bash",
   "powershell", "sql", "html", "css", "sass", "less", "dart", "elixir", "haskell",
   "clojure", "f#", "vb.net", "cobol", "fortran", "assembly", "lua", "groovy"]

def frameworksLibraries : List String :=
  ["react", "angular", "vue", "svelte", "ember", "backbone", "jquery", "nodejs",
   "express", "koa", "fastify", "django", "flask", "fastapi", "pyramid", "tornado",
   "spring", "spring boot", "hibernate", "struts", "laravel", "symfony", "codeigniter",
   "rails", "sinatra", "asp.net", "mvc", "blazor", "xamarin", "unity", "unreal",
   "tensorflow", "pytorch", "keras", "scikit-learn", "pandas", "numpy", "matplotlib",
   "seaborn", "plotly", "opencv", "nltk", "spacy", "hugging face", "transformers"]

def databasesList : List String :=
  ["mysql", "postgresql", "sqlite", "oracle", "sql server", "mongodb", "cassandra",
   "redis", "elasticsearch", "solr", "neo4j", "dynamodb", "couchdb", "influxdb",
   "firebase", "mariadb", "cockroachdb", "amazon rds", "azure sql", "google cloud sql"]

def cloudDevops : List String :=
  ["aws", "azure", "gcp", "google cloud platform", "digital ocean", "linode",
   "docker", "kubernetes", "openshift", "helm", "istio", "jenkins", "github actions",
   "gitlab ci", "circle ci", "travis ci", "azure devops", "terraform", "ansible",
   "chef", "puppet", "vagrant", "packer", "consul", "vault", "nomad", "prometheus",
   "grafana", "elk stack", "datadog", "new relic", "splunk", "nagios", "zabbix"]

def toolsTechnologies : List String :=
  ["git", "github", "gitlab", "bitbucket", "svn", "mercurial", "jira", "confluence",
   "slack", "microsoft teams", "zoom", "figma", "sketch", "adobe xd", "photoshop",
   "illustrator", "after effects", "premiere pro", "blender", "autocad", "solidworks",
   "excel", "powerbi", "tableau", "qlik", "looker", "apache spark", "hadoop",
   "kafka", "rabbitmq", "celery", "airflow", "luigi", "prefect", "dbt"]

def softSkillsList : List String :=
  ["leadership", "communication", "teamwork", "collaboration", "problem solving",
   "analytical thinking", "critical thinking", "creative thinking", "innovation",
   "adaptability", "flexibility", "resilience", "time management", "organization",
   "project management", "stakeholder management", "client relations", "customer service",
   "presentation skills", "public speaking", "negotiation", "conflict resolution",
   "mentoring", "coaching", "training", "strategic planning", "decision making",
   "attention to detail", "quality assurance", "continuous improvement", "agile mindset",
   "emotional intelligence", "cultural awareness", "remote work", "cross-functional collaboration"]

def methodologiesList : List String :=
  ["agile", "scrum", "kanban", "lean", "six sigma", "devops", "ci/cd", "tdd", "bdd",
   "pair programming", "code review", "microservices", "monolith", "serverless",
   "event-driven architecture", "domain-driven design", "clean architecture",
   "solid principles", "design patterns", "rest api", "graphql", "grpc",
   "oauth", "jwt", "saml", "ldap", "sso", "encryption", "ssl/tls", "penetration testing",
   "vulnerability assessment", "compliance", "gdpr", "hipaa", "sox", "pci dss"]

/-- `industry_skills`, in dictionary insertion order. -/
def industryTable : List (String × List String) :=
  [("fintech", ["blockchain", "cryptocurrency", "defi", "trading algorithms",
     "risk management", "compliance", "kyc", "aml"]),
   ("healthcare", ["hipaa", "hl7", "fhir", "medical devices", "clinical trials",
     "telemedicine", "ehr", "emr"]),
   ("ecommerce", ["payment processing", "inventory management", "supply chain",
     "logistics", "crm", "shopify", "magento", "woocommerce"]),
   ("gaming", ["game engines", "unity", "unreal engine", "c#", "c++",
     "graphics programming", "shader programming", "multiplayer networking"]),
   ("iot", ["embedded systems", "sensors", "actuators", "edge computing", "mqtt",
     "lorawan", "zigbee", "bluetooth"]),
   ("ai_ml", ["machine learning", "deep learning", "neural networks", "computer vision",
     "nlp", "reinforcement learning", "mlops", "model deployment"])]

/-- `list(dict.fromkeys(...))`: deduplicate keeping the first occurrence. -/
def pyDedup (l : List String) : List String :=
  l.foldl (fun acc s => if s ∈ acc then acc else acc ++ [s]) []

/-- `all_technical_skills`: the concatenation of the six category lists plus
every industry list, first-occurrence deduplicated. -/
def allTechnicalSkills : List String :=
  pyDedup (programmingLanguages ++ frameworksLibraries ++ databasesList ++
    cloudDevops ++ toolsTechnologies ++ methodologiesList ++
    (industryTable.map Prod.snd).flatten)

/-! ## Skill detection (`_analyze_skills`) -/

/-- Technical skills found as `\b`-delimited occurrences in the (already
lower-cased) text, in catalog order. -/
def analyzeSkillsTech (t : List Char) : List String :=
  allTechnicalSkills.filter fun sk => reSearchWord (lowerL sk.toList) t

/-- Soft skills found in the (already lower-cased) text, in catalog order. -/
def analyzeSkillsSoft (t : List Char) : List String :=
  softSkillsList.filter fun sk => reSearchWord (lowerL sk.toList) t

/-! ## Education detection (`_analyze_education`).

Each Python pattern is of the form `\bLITERAL\b`, except the three
`X[\'s]?` patterns whose optional group is expanded into the three
equivalent `\b`-delimited literals (`X`, `Xs`, `X'` — the regex consumes the
optional character exactly when a word boundary follows it). -/

def apCh : Char := '\''

def eduPhd (t : List Char) : Bool :=
  reSearchWord "phd".toList t || reSearchWord "ph.d".toList t ||
  reSearchWord "doctorate".toList t || reSearchWord "doctoral".toList t

def eduMasters (t : List Char) : Bool :=
  reSearchWord "master".toList t || reSearchWord "masters".toList t ||
  reSearchWord ("master".toList ++ [apCh]) t ||
  reSearchWord "mba".toList t || reSearchWord "ms".toList t ||
  reSearchWord "m.s".toList t || reSearchWord "ma".toList t ||
  reSearchWord "m.a".toList t || reSearchWord "msc".toList t ||
  reSearchWord "m.sc".toList t

def eduBachelors (t : List Char) : Bool :=
  reSearchWord "bachelor".toList t || reSearchWord "bachelors".toList t ||
  reSearchWord ("bachelor".toList ++ [apCh]) t ||
  reSearchWord "bs".toList t || reSearchWord "b.s".toList t ||
  reSearchWord "ba".toList t || reSearchWord "b.a".toList t ||
  reSearchWord "bsc".toList t || reSearchWord "b.sc".toList t ||
  reSearchWord "btech".toList t || reSearchWord "b.tech".toList t

def eduAssociates (t : List Char) : Bool :=
  reSearchWord "associate".toList t || reSearchWord "associates".toList t ||
  reSearchWord ("associate".toList ++ [apCh]) t ||
  reSearchWord "as".toList t || reSearchWord "a.s".toList t ||
  reSearchWord "diploma".toList t

/-- First education level (phd → associates priority) whose pattern hits. -/
def analyzeEducation (t : List Char) : Option String :=
  if eduPhd t then some "phd"
  else if eduMasters t then some "masters"
  else if eduBachelors t then some "bachelors"
  else if eduAssociates t then some "associates"
  else none

/-! ## Keyword extraction (`_extract_advanced_keywords`).

`re.findall(r'\b[a-zA-Z]{3,}\b', text.lower())`: maximal runs of letters of
length at least 3 whose neighbours are not word characters (a digit or `_`
next to the run makes both `\b` positions fail, and the bounded repetition
cannot backtrack to an interior position of the run). -/

/-- Collect the `\b[a-zA-Z]{3,}\b` tokens.  `prevW` is the word-character
status of the character just before the current run, `cur` the reversed
current letter run. -/
def kwTokensAux : Bool → List Char → List Char → List (List Char)
  | prevW, cur, [] =>
    if !cur.isEmpty && !prevW && decide (3 ≤ cur.length) then [cur.reverse] else []
  | prevW, cur, c :: rest =>
    if asciiAlpha c then kwTokensAux prevW (c :: cur) rest
    else
      (if !cur.isEmpty && !prevW && !wordChar c && decide (3 ≤ cur.length)
       then [cur.reverse] else []) ++ kwTokensAux (wordChar c) [] rest

def kwTokens (t : List Char) : List String :=
  (kwTokensAux false [] t).map fun l => String.mk l

def stopWords : List String :=
  ["the", "and", "for", "are", "with", "this", "that", "have", "from", "they", "been",
   "will", "would", "could", "should", "may", "might", "must", "can", "shall"]

/-- `Counter` update: bump `w`, keeping first-insertion key order. -/
def bumpCount : List (String × Nat) → String → List (String × Nat)
  | [], w => [(w, 1)]
  | (k, n) :: rest, w =>
    if k = w then (k, n + 1) :: rest else (k, n) :: bumpCount rest w

def countOcc (ws : List String) : List (String × Nat) := ws.foldl bumpCount []

def maxCountOf (fr : List (String × Nat)) : Nat :=
  fr.foldl (fun a p => Nat.max a p.2) 0

/-- `Counter.most_common`: stable sort by count descending (ties keep
first-insertion order), realised by one pass per count value. -/
def mostCommonDesc (fr : List (String × Nat)) : List (String × Nat) :=
  ((List.range (maxCountOf fr + 1)).reverse).flatMap fun c => fr.filter fun p => p.2 = c

/-- Top-20 keywords of the text (the function lower-cases internally). -/
def extractKeywords (t : List Char) : List String :=
  let ws := kwTokens (lowerL t)
  let filtered := ws.filter fun w => !stopWords.contains w && decide (3 < w.length)
  ((mostCommonDesc (countOcc filtered)).take 20).map Prod.fst

/-! ## Industry detection (`_detect_industry`) -/

def industryScoreOf (t : List Char) (kws : List String) : Nat :=
  (kws.filter fun k => containsSub k.toList t).length

/-- `max(industry_scores, key=industry_scores.get)`: first key attaining the
maximal value, in table order; fallback keyword buckets otherwise. -/
def detectIndustry (t : List Char) : String :=
  let scored := (industryTable.map fun p => (p.1, industryScoreOf t p.2)).filter
    fun p => 0 < p.2
  match scored with
  | p :: rest => (rest.foldl (fun best q => if best.2 < q.2 then q else best) p).1
  | [] =>
    if ["software", "developer", "engineer", "programming"].any
        (fun w => containsSub w.toList t) then "technology"
    else if ["finance", "banking", "investment"].any
        (fun w => containsSub w.toList t) then "finance"
    else if ["healthcare", "medical", "hospital"].any
        (fun w => containsSub w.toList t) then "healthcare"
    else "general"

/-! ## Content quality (`_analyze_content_quality`) -/

def qSymbols : List Char := ['%', 'k', 'm', 'b', '$', '€', '£']

def symbolTok : List Char → Option (List Char)
  | c :: r => if qSymbols.contains c then some r else none
  | [] => none

/-- `\d+(?:\.\d+)?(?:%|k|m|b|\$|€|£)` at the current position (the optional
fraction group is greedy, with fallback when the symbol does not follow). -/
def numTok (l : List Char) : Option (List Nat × List Char) := do
  let (_, r1) ← takeDigits l
  match (match r1 with
         | '.' :: r2 =>
           match takeDigits r2 with
           | some (_, r3) => symbolTok r3
           | none => none
         | _ => none) with
  | some r => return ([1], r)
  | none =>
    match symbolTok r1 with
    | some r => return ([1], r)
    | none => none

def actionVerbs : List String :=
  ["achieved", "administered", "analyzed", "architected", "automated", "built",
   "collaborated", "created", "delivered", "designed", "developed", "directed",
   "enhanced", "established", "executed", "implemented", "improved", "increased",
   "led", "managed", "optimized", "organized", "pioneered", "reduced", "resolved",
   "spearheaded", "streamlined"]

/-- `overall_quality = quantification_score * 0.6 + action_verb_score * 0.4`
(the scores are capped counts; the function lower-cases internally). -/
def contentQualityOverall (t : List Char) : ℚ :=
  let numbersFound := (reFindAll numTok (lowerL t)).length
  let quantificationScore : ℚ := min 100 ((numbersFound : ℚ) * 10)
  let verbCount := (actionVerbs.filter fun v => containsSub v.toList (lowerL t)).length
  let actionVerbScore : ℚ := min 100 ((verbCount : ℚ) * 5)
  quantificationScore * 0.6 + actionVerbScore * 0.4

/-! ## ATS compatibility (`_calculate_ats_compatibility`) -/

/-- `len(text.split())`: number of maximal non-whitespace runs. -/
def wordCountAux : Bool → List Char → Nat
  | _, [] => 0
  | inWord, c :: rest =>
    if pySpace c then wordCountAux false rest
    else (if inWord then 0 else 1) + wordCountAux true rest

def wordCount (l : List Char) : Nat := wordCountAux false l

def standardSections : List String := ["experience", "education", "skills", "summary"]

/-- ATS score of the raw resume text (the code shape: start at 100, apply the
non-ASCII and word-count penalties, then subtract the section shortfall
inside a final `max(0, ...)`). -/
def atsCompatibility (t : List Char) : ℚ :=
  let base : ℚ := 100
  let s1 := if t.any (fun c => 127 < c.toNat) then base - 10 else base
  let foundSections :=
    (standardSections.filter fun sec => containsSub sec.toList (lowerL t)).length
  let sectionScore : ℚ := ((foundSections : ℚ) / (standardSections.length : ℚ)) * 20
  let wc := wordCount t
  let s2 := if wc < 300 then s1 - 15 else if 800 < wc then s1 - 5 else s1
  max 0 (s2 - (20 - sectionScore))

/-! ## Job-side requirement extraction -/

/-- `A.*B` somewhere in `t` (`re.search`); `.` does not match a newline. -/
def matchDotStar (a b t : List Char) : Bool :=
  (List.range (t.length + 1)).any fun i =>
    (litL a (t.drop i)).isSome &&
    (let rest := t.drop (i + a.length)
     (List.range (rest.length + 1)).any fun k =>
       (litL b (rest.drop k)).isSome && !(rest.take k).any (· = '\n'))

/-- `_extract_education_requirements` on the lower-cased job text. -/
def extractEducationRequirements (t : List Char) : Option String :=
  if matchDotStar "phd".toList "required".toList t ||
     matchDotStar "doctorate".toList "required".toList t then some "phd"
  else if matchDotStar "master".toList "required".toList t ||
     matchDotStar "mba".toList "required".toList t then some "masters"
  else if matchDotStar "bachelor".toList "required".toList t ||
     matchDotStar "degree".toList "required".toList t then some "bachelors"
  else none

/-! ## Facts records.

`analyze_resume` / `analyze_job_description` return open dictionaries; the
records below carry exactly the fields that the match scorer
(`calculate_advanced_match_score`) and the suggestion engine
(`generate_advanced_suggestions`) read from them.  The remaining dictionary
entries (word counts, contact info, job level, company size, urgency,
complexity) are written but never read by the core pipeline and are not
modelled. -/

structure ResumeFacts where
  technical_skills : List String
  soft_skills : List String
  experience_years : Nat
  education_level : Option String
  keywords : List String
  detected_industry : Option String
  quality_overall : ℚ
  ats_compatibility_score : ℚ
  deriving Repr, DecidableEq

structure JobFacts where
  technical_skills : List String
  soft_skills : List String
  experience_required : Nat
  education_required : Option String
  keywords : List String
  industry : Option String
  deriving Repr, DecidableEq

/-- The error taxonomy of the analyzer entry points. -/
inductive AnalysisError where
  | inputTooShort
  deriving Repr, DecidableEq

/-- `analyze_resume`: fails iff the text is empty or its stripped length is
below 50; otherwise assembles the resume Facts from the helpers (skill,
experience, education and industry detection run on the lower-cased text,
quality, keyword and ATS analysis on the raw text). -/
def analyzeResume (text : String) : Except AnalysisError ResumeFacts :=
  if text.toList.isEmpty || decide ((pyStrip text.toList).length < 50) then
    .error .inputTooShort
  else
    let lower := lowerL text.toList
    .ok
      { technical_skills := analyzeSkillsTech lower
        soft_skills := analyzeSkillsSoft lower
        experience_years := analyzeExperienceYears lower
        education_level := analyzeEducation lower
        keywords := extractKeywords text.toList
        detected_industry := some (detectIndustry lower)
        quality_overall := contentQualityOverall text.toList
        ats_compatibility_score := atsCompatibility text.toList }

/-- `analyze_job_description`: same length guard; assembles the job Facts. -/
def analyzeJobDescription (text : String) : Except AnalysisError JobFacts :=
  if text.toList.isEmpty || decide ((pyStrip text.toList).length < 50) then
    .error .inputTooShort
  else
    let lower := lowerL text.toList
    .ok
      { technical_skills := analyzeSkillsTech lower
        soft_skills := analyzeSkillsSoft lower
        experience_required := extractRequiredExperience lower
        education_required := extractEducationRequirements lower
        keywords := extractKeywords text.toList
        industry := some (detectIndustry lower) }

/-- Field extraction helpers for stating theorems about the `Except` results. -/
def techSkillsOf (e : Except AnalysisError ResumeFacts) : List String :=
  match e with
  | .ok f => f.technical_skills
  | .error _ => []

def softSkillsOf (e : Except AnalysisError ResumeFacts) : List String :=
  match e with
  | .ok f => f.soft_skills
  | .error _ => []

def expYearsOf (e : Except AnalysisError ResumeFacts) : Nat :=
  match e with
  | .ok f => f.experience_years
  | .error _ => 0

def jobExpOf (e : Except AnalysisError JobFacts) : Nat :=
  match e with
  | .ok f => f.experience_required
  | .error _ => 0

/-! ## Match scorer (`calculate_advanced_match_score`) -/

/-- Technical / soft skill dimension:
`(len(matches) / len(job)) * 100 if job else 100`. -/
def skillDimScore (resume job : Finset String) : ℚ :=
  if job = ∅ then 100 else ((resume ∩ job).card : ℚ) / (job.card : ℚ) * 100

/-- Keyword dimension: `... if job_keywords else 0`. -/
def keywordDimScore (resume job : Finset String) : ℚ :=
  if job = ∅ then 0 else ((resume ∩ job).card : ℚ) / (job.card : ℚ) * 100

/-- `_calculate_experience_score`. -/
def calcExperienceScore (resumeExp requiredExp : Nat) : ℚ :=
  if requiredExp = 0 then 100
  else if requiredExp ≤ resumeExp then
    if (resumeExp : ℚ) ≤ (requiredExp : ℚ) * 1.5 then 100
    else max 70 (100 - ((resumeExp : ℚ) - (requiredExp : ℚ) * 1.5) * 5)
  else max 0 (100 - ((requiredExp : ℚ) - (resumeExp : ℚ)) * 20)

/-- `education_levels` ordinal, default 0 (also for a missing level). -/
def eduLevelNum : Option String → Nat
  | none => 0
  | some s =>
    if s = "associates" then 1
    else if s = "bachelors" then 2
    else if s = "masters" then 3
    else if s = "phd" then 4
    else 0

/-- `_calculate_education_score`. -/
def calcEducationScore (resumeEdu requiredEdu : Option String) : ℚ :=
  match requiredEdu with
  | none => 100
  | some req =>
    let rl := eduLevelNum resumeEdu
    let ql := eduLevelNum (some req)
    if ql ≤ rl then 100
    else if rl = ql - 1 then 75
    else if rl = ql - 2 then 50
    else 25

/-- `related_industries` adjacency table. -/
def relatedIndustries (s : String) : List String :=
  if s = "technology" then ["fintech", "ai_ml", "iot"]
  else if s = "healthcare" then ["fintech"]
  else if s = "finance" then ["fintech"]
  else []

/-- `_calculate_industry_alignment`. -/
def calcIndustryAlignment (resumeInd jobInd : Option String) : ℚ :=
  match resumeInd, jobInd with
  | some r, some j =>
    if r = j then 100
    else if (relatedIndustries r).contains j then 80
    else 50
  | _, _ => 70

/-- `_categorize_match_strength`. -/
def categorizeMatchStrength (score : ℚ) : String :=
  if 85 ≤ score then "excellent"
  else if 70 ≤ score then "good"
  else if 50 ≤ score then "fair"
  else "poor"

/-- `skill_importance` lookup with default 3. -/
def skillImportance (s : String) : Nat :=
  if s = "python" then 10 else if s = "java" then 10
  else if s = "javascript" then 10 else if s = "react" then 9
  else if s = "aws" then 9 else if s = "sql" then 9
  else if s = "git" then 8 else if s = "docker" then 8
  else if s = "kubernetes" then 8 else if s = "node.js" then 8
  else if s = "angular" then 7 else if s = "vue" then 7
  else if s = "django" then 7 else if s = "flask" then 7
  else if s = "spring" then 7 else if s = "html" then 5
  else if s = "css" then 5 else if s = "bootstrap" then 4
  else 3

/-- `_identify_top_skill_gaps`: stable sort of the missing skills by
importance descending, truncated to 5.  The Python input is a set whose
iteration order is not language-determined; the model receives the missing
skills as a list and keeps the relative order of equal-importance entries. -/
def identifyTopSkillGaps (missing : List String) : List String :=
  (((List.range 11).reverse).flatMap fun v =>
    missing.filter fun sk => skillImportance sk = v).take 5

/-- Canonical list representative of a string set (CPython's `list(s)` order
is unspecified; nothing downstream depends on it beyond membership/length). -/
def finsetToList (s : Finset String) : List String := s.sort (· ≤ ·)

structure MatchResult where
  overall_score : ℚ
  technical_score : ℚ
  soft_skills_score : ℚ
  experience_score : ℚ
  education_score : ℚ
  industry_score : ℚ
  keyword_score : ℚ
  ats_compatibility_score : ℚ
  matched_technical_skills : List String
  missing_technical_skills : List String
  matched_soft_skills : List String
  missing_soft_skills : List String
  matched_keywords : List String
  experience_gap : ℤ
  experience_surplus : ℤ
  match_strength : String
  top_skill_gaps : List String
  deriving Repr, DecidableEq

/-- The weighted pre-ATS combination of the six dimension scores. -/
def weightedSumOf (rf : ResumeFacts) (jf : JobFacts) : ℚ :=
  skillDimScore rf.technical_skills.toFinset jf.technical_skills.toFinset * 0.35 +
  skillDimScore rf.soft_skills.toFinset jf.soft_skills.toFinset * 0.15 +
  calcExperienceScore rf.experience_years jf.experience_required * 0.20 +
  calcEducationScore rf.education_level jf.education_required * 0.10 +
  calcIndustryAlignment rf.detected_industry jf.industry * 0.10 +
  keywordDimScore rf.keywords.toFinset jf.keywords.toFinset * 0.10

/-- `calculate_advanced_match_score` (scores kept at full precision; the
code's `round(x, 1)` happens only when the reporting dictionary is built). -/
def matchScore (rf : ResumeFacts) (jf : JobFacts) : MatchResult :=
  let resumeTech := rf.technical_skills.toFinset
  let jobTech := jf.technical_skills.toFinset
  let resumeSoft := rf.soft_skills.toFinset
  let jobSoft := jf.soft_skills.toFinset
  let resumeKw := rf.keywords.toFinset
  let jobKw := jf.keywords.toFinset
  let finalScore := weightedSumOf rf jf * (0.7 + 0.3 * (rf.ats_compatibility_score / 100))
  { overall_score := finalScore
    technical_score := skillDimScore resumeTech jobTech
    soft_skills_score := skillDimScore resumeSoft jobSoft
    experience_score := calcExperienceScore rf.experience_years jf.experience_required
    education_score := calcEducationScore rf.education_level jf.education_required
    industry_score := calcIndustryAlignment rf.detected_industry jf.industry
    keyword_score := keywordDimScore resumeKw jobKw
    ats_compatibility_score := rf.ats_compatibility_score
    matched_technical_skills := finsetToList (resumeTech ∩ jobTech)
    missing_technical_skills := finsetToList (jobTech \ resumeTech)
    matched_soft_skills := finsetToList (resumeSoft ∩ jobSoft)
    missing_soft_skills := finsetToList (jobSoft \ resumeSoft)
    matched_keywords := finsetToList (resumeKw ∩ jobKw)
    experience_gap := max 0 ((jf.experience_required : ℤ) - (rf.experience_years : ℤ))
    experience_surplus := max 0 ((rf.experience_years : ℤ) - (jf.experience_required : ℤ))
    match_strength := categorizeMatchStrength finalScore
    top_skill_gaps := identifyTopSkillGaps (finsetToList (jobTech \ resumeTech)) }

/-! ## Suggestion engine (`generate_advanced_suggestions`).

The message strings carry no structure relevant to the spec claims (length
and position of the fixed universal tail); each appended message is
modelled as a tagged value carrying its dynamic payload. -/

inductive Suggestion where
  | critical
  | techGapHigh (skills : List String)
  | techGapNormal (skills : List String)
  | expGapLarge (gap : ℤ)
  | expGapSmall (gap : ℤ)
  | overqualified
  | softGap (skills : List String)
  | atsFormatting
  | contentQuality
  | keywordDensity
  | industryFocus (industry : String)
  | educationFocus (edu : String)
  | strategyPoor
  | strategyFair
  | strategyGood
  | strategyExcellent
  | universal1
  | universal2
  | universal3
  | universal4
  | universal5
  deriving Repr, DecidableEq

/-- The fixed 5-item universal best-practices list. -/
def universalSuggestions : List Suggestion :=
  [.universal1, .universal2, .universal3, .universal4, .universal5]

/-- The always-appended match-strength message (`if/elif/elif/else`). -/
def strengthMsg (s : String) : Suggestion :=
  if s = "poor" then .strategyPoor
  else if s = "fair" then .strategyFair
  else if s = "good" then .strategyGood
  else .strategyExcellent

/-- The conditional stages 1-9, in priority order; each contributes its
messages (stage 3 can contribute two: the gap `if/elif` and the independent
surplus check). -/
def condMsgs (m : MatchResult) (rf : ResumeFacts) (jf : JobFacts) : List Suggestion :=
  (if m.overall_score < 40 then [.critical] else []) ++
  (if !m.missing_technical_skills.isEmpty then
    (if 3 < m.top_skill_gaps.length then [.techGapHigh (m.top_skill_gaps.take 3)]
     else [.techGapNormal m.top_skill_gaps]) else []) ++
  (if 2 < m.experience_gap then [.expGapLarge m.experience_gap]
   else if 0 < m.experience_gap then [.expGapSmall m.experience_gap] else []) ++
  (if 5 < m.experience_surplus then [.overqualified] else []) ++
  (if !m.missing_soft_skills.isEmpty && 2 < m.missing_soft_skills.length then
    [.softGap (m.missing_soft_skills.take 3)] else []) ++
  (if m.ats_compatibility_score < 70 then [.atsFormatting] else []) ++
  (if rf.quality_overall < 70 then [.contentQuality] else []) ++
  (if m.keyword_score < 60 then [.keywordDensity] else []) ++
  (if m.industry_score < 70 then
    (match rf.detected_industry, jf.industry with
     | some a, some b => if a ≠ b then [.industryFocus b] else []
     | _, _ => []) else []) ++
  (if m.education_score < 80 then
    (match jf.education_required with
     | some e => [.educationFocus e]
     | none => []) else [])

/-- The full accumulated suggestion list before truncation. -/
def suggestFull (m : MatchResult) (rf : ResumeFacts) (jf : JobFacts) : List Suggestion :=
  condMsgs m rf jf ++ [strengthMsg m.match_strength] ++ universalSuggestions.take 3

/-- `generate_advanced_suggestions`: truncated to the first 10 messages. -/
def suggest (m : MatchResult) (rf : ResumeFacts) (jf : JobFacts) : List Suggestion :=
  (suggestFull m rf jf).take 10

/-! ## Spec-side formulations (written from the claim/spec wording, for
refinement comparisons against the code-shaped definitions above). -/

/-- Claim C2's wording: "the maximum over all integer captures ... and 0
when no experience regex matches" (the fold base 0 realises both clauses). -/
def maxCapturesSpec (caps : List Nat) : Nat := caps.foldr Nat.max 0

/-- The job-side extraction actually implemented: the minimum over all
captures, 0 when there are none. -/
def minCapturesSpec : List Nat → Nat
  | [] => 0
  | y :: ys => ys.foldr Nat.min y

/-- Claim C5's wording of the experience score. -/
def specExperienceScore (resumeExp requiredExp : Nat) : ℚ :=
  if requiredExp = 0 then 100
  else if requiredExp ≤ resumeExp then
    (if (resumeExp : ℚ) ≤ 1.5 * (requiredExp : ℚ) then 100
     else max 70 (100 - 5 * ((resumeExp : ℚ) - 1.5 * (requiredExp : ℚ))))
  else max 0 (100 - 20 * ((requiredExp : ℚ) - (resumeExp : ℚ)))

/-- Claim C9's wording of the ATS score: `max(0, 100 − nonAsciiPenalty −
wordCountPenalty − (20 − (foundStandardSections/4)·20))`. -/
def specAtsScore (t : List Char) : ℚ :=
  let nonAsciiPenalty : ℚ := if t.any (fun c => 127 < c.toNat) then 10 else 0
  let wc := wordCount t
  let lengthPenalty : ℚ := if wc < 300 then 15 else if 800 < wc then 5 else 0
  let found :=
    (standardSections.filter fun sec => containsSub sec.toList (lowerL t)).length
  max 0 (100 - nonAsciiPenalty - lengthPenalty - (20 - ((found : ℚ) / 4) * 20))

/-! ## Concrete inputs for witnesses and counterexamples -/

/-- Resume text (61 characters, passes the length guard) containing the
catalog skill `c++` as a standalone word. -/
def c1CexText : String := "we build large scale c++ services for embedded hardware teams"

/-- Resume text containing the catalog skill `python` as a standalone word. -/
def c1WitnessText : String := "senior python developer with experience in cloud infrastructure"

/-- Job text whose experience captures are 5 (pattern 1) and 3 (pattern
`minimum N years`): the code reports the minimum, 3. -/
def c2JobText : String :=
  "candidates need minimum 3 years and 5 years of experience in total here"

/-- Resume text with a single experience capture. -/
def c2WitnessText : String :=
  "worked for 7 years of experience as a backend engineer in fintech teams"

def rfC6 : ResumeFacts :=
  { technical_skills := ["python", "sql"]
    soft_skills := ["leadership"]
    experience_years := 4
    education_level := some "bachelors"
    keywords := ["python", "data"]
    detected_industry := some "technology"
    quality_overall := 80
    ats_compatibility_score := 90 }

def jfC6 : JobFacts :=
  { technical_skills := ["python", "aws"]
    soft_skills := ["leadership"]
    experience_required := 3
    education_required := some "bachelors"
    keywords := ["python"]
    industry := some "fintech" }

def rfC4 : ResumeFacts :=
  { technical_skills := ["python"]
    soft_skills := ["teamwork"]
    experience_years := 2
    education_level := none
    keywords := ["python"]
    detected_industry := some "general"
    quality_overall := 50
    ats_compatibility_score := 80 }

def jfC4 : JobFacts :=
  { technical_skills := []
    soft_skills := []
    experience_required := 0
    education_required := none
    keywords := []
    industry := none }

def mC8 : MatchResult :=
  { overall_score := 90
    technical_score := 90
    soft_skills_score := 90
    experience_score := 90
    education_score := 90
    industry_score := 90
    keyword_score := 90
    ats_compatibility_score := 90
    matched_technical_skills := ["python"]
    missing_technical_skills := []
    matched_soft_skills := []
    missing_soft_skills := []
    matched_keywords := []
    experience_gap := 0
    experience_surplus := 0
    match_strength := "excellent"
    top_skill_gaps := [] }

def rfC8 : ResumeFacts :=
  { technical_skills := ["python"]
    soft_skills := []
    experience_years := 5
    education_level := some "bachelors"
    keywords := []
    detected_industry := some "technology"
    quality_overall := 80
    ats_compatibility_score := 90 }

def jfC8 : JobFacts :=
  { technical_skills := ["python"]
    soft_skills := []
    experience_required := 3
    education_required := none
    keywords := []
    industry := some "technology" }

/-! ## Helper lemmas: the literal matcher and the `\b` engine -/

theorem litL_isSome_iff (s u : List Char) :
    (litL s u).isSome = true ↔ ∃ r, u = s ++ r := by
  induction s generalizing u with
  | nil => simp [litL]
  | cons c cs ih =>
    cases u with
    | nil => simp [litL]
    | cons x xs =>
      by_cases h : c = x
      · subst h
        simp [litL, ih]
      · simp [litL, h, Ne.symm h]

theorem getD_drop_char (t : List Char) (i k : Nat) :
    (t.drop i).getD k ' ' = t.getD (i + k) ' ' := by
  induction t generalizing i with
  | nil => simp
  | cons c cs ih =>
    cases i with
    | zero => simp
    | succ j =>
      have : j + 1 + k = (j + k) + 1 := by omega
      rw [this]
      simp only [List.drop_succ_cons, List.getD_cons_succ]
      exact ih j

theorem getD_append_left_char (s r : List Char) (k : Nat) (h : k < s.length) :
    (s ++ r).getD k ' ' = s.getD k ' ' := by
  induction s generalizing k with
  | nil => simp at h
  | cons c cs ih =>
    cases k with
    | zero => simp
    | succ j =>
      simp only [List.cons_append, List.getD_cons_succ]
      exact ih j (by simpa using h)

/-- Character transfer: if `s` is a prefix of `t.drop i`, the characters of
`t` at offsets `i + k` (for `k` inside `s`) are those of `s`. -/
theorem getD_of_litL (s t : List Char) (i k : Nat)
    (hp : (litL s (t.drop i)).isSome = true) (hk : k < s.length) :
    t.getD (i + k) ' ' = s.getD k ' ' := by
  obtain ⟨r, hr⟩ := (litL_isSome_iff s (t.drop i)).1 hp
  rw [← getD_drop_char, hr, getD_append_left_char s r k hk]

/-- For a word whose first and last characters are word characters, the
regex `\b word \b` matches at `i` exactly when the occurrence at `i` is
standalone (no adjacent word character on either side). -/
theorem matchAt_eq_standaloneAt (s t : List Char) (i : Nat) (hne : s ≠ [])
    (h1 : wordChar (s.getD 0 ' ') = true)
    (h2 : wordChar (s.getD (s.length - 1) ' ') = true) :
    matchAt s t i = standaloneAt s t i := by
  unfold matchAt standaloneAt
  cases hp : (litL s (t.drop i)).isSome
  · simp [hp]
  · have hlen : 1 ≤ s.length := List.length_pos.2 hne
    have hA : wcAt t i = true := by
      unfold wcAt
      have := getD_of_litL s t i 0 hp (by omega)
      rw [Nat.add_zero] at this
      rw [this]; exact h1
    have hB : wcAt t (i + (s.length - 1)) = true := by
      unfold wcAt
      rw [getD_of_litL s t i (s.length - 1) hp (by omega)]
      exact h2
    have hStart : bnd t i = (decide (i = 0) || !wcAt t (i - 1)) := by
      cases i with
      | zero => simp [bnd, hA]
      | succ q =>
        simp only [bnd, Nat.succ_sub_one]
        rw [hA]
        simp
    have hEnd : bnd t (i + s.length) = !wcAt t (i + s.length) := by
      have he : i + s.length = (i + (s.length - 1)) + 1 := by omega
      rw [he]
      simp only [bnd]
      rw [hB]
      simp
    rw [hStart, hEnd]

theorem any_congr_list {α : Type} (l : List α) (f g : α → Bool)
    (h : ∀ x ∈ l, f x = g x) : l.any f = l.any g := by
  induction l with
  | nil => rfl
  | cons x xs ih =>
    simp only [List.any_cons]
    rw [h x (by simp), ih fun y hy => h y (by simp [hy])]

/-- The `\b`-delimited search coincides with the standalone-occurrence
predicate for words with word-character edges. -/
theorem reSearchWord_eq_occursStandalone (s t : List Char) (hne : s ≠ [])
    (h1 : wordChar (s.getD 0 ' ') = true)
    (h2 : wordChar (s.getD (s.length - 1) ' ') = true) :
    reSearchWord s t = occursStandalone s t := by
  unfold reSearchWord occursStandalone
  exact any_congr_list _ _ _ fun i _ => matchAt_eq_standaloneAt s t i hne h1 h2

/-! ## Helper lemmas: the analyzer entry points under the length guard -/

theorem guard_iff (t : String) :
    (t.toList.isEmpty || decide ((pyStrip t.toList).length < 50)) = true ↔
      (pyStrip t.toList).length < 50 := by
  cases h : t.toList with
  | nil => simp [h, pyStrip]
  | cons c cs => simp [h]

theorem analyzeResume_ok (t : String) (hlen : 50 ≤ (pyStrip t.toList).length) :
    analyzeResume t = .ok
      { technical_skills := analyzeSkillsTech (lowerL t.toList)
        soft_skills := analyzeSkillsSoft (lowerL t.toList)
        experience_years := analyzeExperienceYears (lowerL t.toList)
        education_level := analyzeEducation (lowerL t.toList)
        keywords := extractKeywords t.toList
        detected_industry := some (detectIndustry (lowerL t.toList))
        quality_overall := contentQualityOverall t.toList
        ats_compatibility_score := atsCompatibility t.toList } := by
  unfold analyzeResume
  rw [if_neg]
  intro hcontra
  exact absurd ((guard_iff t).1 hcontra) (by omega)

theorem analyzeJobDescription_ok (t : String)
    (hlen : 50 ≤ (pyStrip t.toList).length) :
    analyzeJobDescription t = .ok
      { technical_skills := analyzeSkillsTech (lowerL t.toList)
        soft_skills := analyzeSkillsSoft (lowerL t.toList)
        experience_required := extractRequiredExperience (lowerL t.toList)
        education_required := extractEducationRequirements (lowerL t.toList)
        keywords := extractKeywords t.toList
        industry := some (detectIndustry (lowerL t.toList)) } := by
  unfold analyzeJobDescription
  rw [if_neg]
  intro hcontra
  exact absurd ((guard_iff t).1 hcontra) (by omega)

theorem techSkillsOf_okf (f : ResumeFacts) :
    techSkillsOf (.ok f) = f.technical_skills := rfl

theorem softSkillsOf_okf (f : ResumeFacts) :
    softSkillsOf (.ok f) = f.soft_skills := rfl

theorem expYearsOf_okf (f : ResumeFacts) :
    expYearsOf (.ok f) = f.experience_years := rfl

theorem jobExpOf_okf (f : JobFacts) :
    jobExpOf (.ok f) = f.experience_required := rfl

theorem techSkillsOf_analyzeResume (t : String)
    (hlen : 50 ≤ (pyStrip t.toList).length) :
    techSkillsOf (analyzeResume t) = analyzeSkillsTech (lowerL t.toList) := by
  rw [analyzeResume_ok t hlen, techSkillsOf_okf]

theorem softSkillsOf_analyzeResume (t : String)
    (hlen : 50 ≤ (pyStrip t.toList).length) :
    softSkillsOf (analyzeResume t) = analyzeSkillsSoft (lowerL t.toList) := by
  rw [analyzeResume_ok t hlen, softSkillsOf_okf]

theorem expYearsOf_analyzeResume (t : String)
    (hlen : 50 ≤ (pyStrip t.toList).length) :
    expYearsOf (analyzeResume t) = analyzeExperienceYears (lowerL t.toList) := by
  rw [analyzeResume_ok t hlen, expYearsOf_okf]

theorem jobExpOf_analyzeJobDescription (t : String)
    (hlen : 50 ≤ (pyStrip t.toList).length) :
    jobExpOf (analyzeJobDescription t) = extractRequiredExperience (lowerL t.toList) := by
  rw [analyzeJobDescription_ok t hlen, jobExpOf_okf]

/-! ## Claim C1 -/

/-- Deduplication preserves membership. -/
theorem mem_pyDedup_aux (a : String) (l : List String) : ∀ acc : List String,
    (a ∈ l.foldl (fun acc s => if s ∈ acc then acc else acc ++ [s]) acc ↔
      a ∈ acc ∨ a ∈ l) := by
  induction l with
  | nil => intro acc; simp
  | cons s ls ih =>
    intro acc
    simp only [List.foldl_cons, ih, List.mem_cons]
    by_cases hs : s ∈ acc
    · simp only [if_pos hs]
      constructor
      · rintro (h | h)
        · exact Or.inl h
        · exact Or.inr (Or.inr h)
      · rintro (h | h | h)
        · exact Or.inl h
        · exact Or.inl (h ▸ hs)
        · exact Or.inr h
    · simp only [if_neg hs, List.mem_append, List.mem_singleton]
      tauto

theorem mem_pyDedup (a : String) (l : List String) :
    a ∈ pyDedup l ↔ a ∈ l := by
  unfold pyDedup
  rw [mem_pyDedup_aux]
  simp

/-- C1 (counterexample): the catalog skill `c++` occurs standalone in a
valid resume text, yet `analyzeResume` does not report it: the trailing
regex `\b` fails after a non-word character, so the claim's "standalone
occurrence implies containment" is false as stated. -/
theorem c1_counterexample :
    "c++" ∈ allTechnicalSkills ∧
    occursStandalone (lowerL "c++".toList) (lowerL c1CexText.toList) = true ∧
    ¬ ("c++" ∈ techSkillsOf (analyzeResume c1CexText)) := by
  refine ⟨(mem_pyDedup _ _).mpr (by decide), by decide, ?_⟩
  rw [techSkillsOf_analyzeResume c1CexText (by decide)]
  intro hmem
  unfold analyzeSkillsTech at hmem
  exact absurd (List.mem_filter.1 hmem).2 (by decide)

/-- C1 (amended): for catalog skills whose first and last characters are
word characters (all catalog entries except `c++`, `c#` and `f#`),
membership in `analyzeResume(text).technicalSkills` (resp. `softSkills`)
holds exactly when the lower-cased skill occurs in the lower-cased text as
a standalone whole word — in particular a skill occurring only embedded in
a longer word is not contained. -/
theorem c1_whole_word_detection (skill t : String)
    (hne : lowerL skill.toList ≠ [])
    (h1 : wordChar ((lowerL skill.toList).getD 0 ' ') = true)
    (h2 : wordChar ((lowerL skill.toList).getD ((lowerL skill.toList).length - 1) ' ') = true)
    (hlen : 50 ≤ (pyStrip t.toList).length) :
    (skill ∈ allTechnicalSkills →
      (skill ∈ techSkillsOf (analyzeResume t) ↔
        occursStandalone (lowerL skill.toList) (lowerL t.toList) = true)) ∧
    (skill ∈ softSkillsList →
      (skill ∈ softSkillsOf (analyzeResume t) ↔
        occursStandalone (lowerL skill.toList) (lowerL t.toList) = true)) := by
  have hsearch := reSearchWord_eq_occursStandalone (lowerL skill.toList)
    (lowerL t.toList) hne h1 h2
  constructor
  · intro hmem
    rw [techSkillsOf_analyzeResume t hlen]
    unfold analyzeSkillsTech
    rw [List.mem_filter]
    constructor
    · intro h
      rw [← hsearch]
      exact h.2
    · intro h
      exact ⟨hmem, by rw [hsearch]; exact h⟩
  · intro hmem
    rw [softSkillsOf_analyzeResume t hlen]
    unfold analyzeSkillsSoft
    rw [List.mem_filter]
    constructor
    · intro h
      rw [← hsearch]
      exact h.2
    · intro h
      exact ⟨hmem, by rw [hsearch]; exact h⟩

/-- C1 witness: `python` occurs standalone in a concrete resume text and is
reported among the technical skills. -/
theorem c1_witness : "python" ∈ techSkillsOf (analyzeResume c1WitnessText) :=
  ((c1_whole_word_detection "python" c1WitnessText (by decide) (by decide)
    (by decide) (by decide)).1 ((mem_pyDedup _ _).mpr (by decide))).mpr (by decide)

/-! ## Claim C2 -/

theorem foldl_max_eq (ys : List Nat) : ∀ y : Nat,
    ys.foldl Nat.max y = Nat.max y (ys.foldr Nat.max 0) := by
  induction ys with
  | nil => intro y; simp
  | cons c cs ih =>
    intro y
    simp only [List.foldl_cons, List.foldr_cons, ih (Nat.max y c)]
    exact Nat.max_assoc y c (List.foldr Nat.max 0 cs)

theorem pyMaxNat_eq_foldr (l : List Nat) : pyMaxNat l = l.foldr Nat.max 0 := by
  cases l with
  | nil => rfl
  | cons y ys =>
    simp only [pyMaxNat, List.foldr_cons, foldl_max_eq]

theorem foldr_min_absorb (cs : List Nat) : ∀ y c : Nat,
    cs.foldr Nat.min (Nat.min y c) = Nat.min c (cs.foldr Nat.min y) := by
  induction cs with
  | nil => intro y c; exact Nat.min_comm y c
  | cons d ds ih =>
    intro y c
    simp only [List.foldr_cons, ih]
    exact Nat.min_left_comm d c (List.foldr Nat.min y ds)

theorem foldl_min_eq_foldr (ys : List Nat) : ∀ y : Nat,
    ys.foldl Nat.min y = ys.foldr Nat.min y := by
  induction ys with
  | nil => intro y; rfl
  | cons c cs ih =>
    intro y
    simp only [List.foldl_cons, List.foldr_cons, ih (Nat.min y c), foldr_min_absorb]

theorem pyMinNat_eq_spec (l : List Nat) : pyMinNat l = minCapturesSpec l := by
  cases l with
  | nil => rfl
  | cons y ys => simp only [pyMinNat, minCapturesSpec, foldl_min_eq_foldr]

/-- C2 (counterexample): a valid job text in which the experience regexes
capture 3 (from `minimum 3 years`) and 5 (from `5 years of experience`):
the code's `experienceRequired` is the minimum, 3, not the maximum, 5 —
under either reading of "every experience regex" (the job pattern list or
the resume pattern list) the maximum is 5. -/
theorem c2_counterexample :
    jobExpOf (analyzeJobDescription c2JobText) = 3 ∧
    (jobExpCaptures (lowerL c2JobText.toList)).foldr Nat.max 0 = 5 ∧
    (resumeExpCaptures (lowerL c2JobText.toList)).foldr Nat.max 0 = 5 := by
  refine ⟨?_, by decide, by decide⟩
  rw [jobExpOf_analyzeJobDescription c2JobText (by decide)]
  decide

/-- C2 (amended): for resumes the extracted `experienceYears` is the
maximum over all integer captures of the six resume experience regexes on
the lower-cased text (0 when none match); for job descriptions the
extracted `experienceRequired` is the *minimum* over all integer captures
of the four job experience regexes (0 when none match). -/
theorem c2_experience_extraction :
    (∀ t : String, 50 ≤ (pyStrip t.toList).length →
      expYearsOf (analyzeResume t) =
        maxCapturesSpec (resumeExpCaptures (lowerL t.toList))) ∧
    (∀ t : String, 50 ≤ (pyStrip t.toList).length →
      jobExpOf (analyzeJobDescription t) =
        minCapturesSpec (jobExpCaptures (lowerL t.toList))) := by
  constructor
  · intro t hlen
    rw [expYearsOf_analyzeResume t hlen]
    unfold analyzeExperienceYears maxCapturesSpec
    exact pyMaxNat_eq_foldr _
  · intro t hlen
    rw [jobExpOf_analyzeJobDescription t hlen]
    unfold extractRequiredExperience
    exact pyMinNat_eq_spec _

/-- C2 witness: concrete instantiation of both halves of the amended claim. -/
theorem c2_witness :
    50 ≤ (pyStrip c2WitnessText.toList).length ∧
    expYearsOf (analyzeResume c2WitnessText) =
      maxCapturesSpec (resumeExpCaptures (lowerL c2WitnessText.toList)) ∧
    jobExpOf (analyzeJobDescription c2JobText) =
      minCapturesSpec (jobExpCaptures (lowerL c2JobText.toList)) :=
  ⟨by decide, c2_experience_extraction.1 c2WitnessText (by decide),
    c2_experience_extraction.2 c2JobText (by decide)⟩

/-! ## Claim C4 -/

/-- C4: the technical and soft dimension scores are `|r ∩ j| / |j| · 100`
with an empty job-side set scoring 100, while the keyword dimension scores
0 on an empty job keyword set; all three are total functions (no
division-by-empty-set error exists in the model). -/
theorem c4_dimension_scores (rf : ResumeFacts) (jf : JobFacts) :
    ((matchScore rf jf).technical_score =
      if jf.technical_skills.toFinset = ∅ then 100
      else ((rf.technical_skills.toFinset ∩ jf.technical_skills.toFinset).card : ℚ) /
        (jf.technical_skills.toFinset.card : ℚ) * 100) ∧
    ((matchScore rf jf).soft_skills_score =
      if jf.soft_skills.toFinset = ∅ then 100
      else ((rf.soft_skills.toFinset ∩ jf.soft_skills.toFinset).card : ℚ) /
        (jf.soft_skills.toFinset.card : ℚ) * 100) ∧
    ((matchScore rf jf).keyword_score =
      if jf.keywords.toFinset = ∅ then 0
      else ((rf.keywords.toFinset ∩ jf.keywords.toFinset).card : ℚ) /
        (jf.keywords.toFinset.card : ℚ) * 100) ∧
    (jf.technical_skills = [] → (matchScore rf jf).technical_score = 100) ∧
    (jf.soft_skills = [] → (matchScore rf jf).soft_skills_score = 100) ∧
    (jf.keywords = [] → (matchScore rf jf).keyword_score = 0) := by
  refine ⟨rfl, rfl, rfl, ?_, ?_, ?_⟩
  · intro h
    show skillDimScore rf.technical_skills.toFinset jf.technical_skills.toFinset = 100
    rw [h]
    simp [skillDimScore]
  · intro h
    show skillDimScore rf.soft_skills.toFinset jf.soft_skills.toFinset = 100
    rw [h]
    simp [skillDimScore]
  · intro h
    show keywordDimScore rf.keywords.toFinset jf.keywords.toFinset = 0
    rw [h]
    simp [keywordDimScore]

/-- C4 witness: a concrete pair of Facts with empty job-side skill and
keyword sets. -/
theorem c4_witness :
    (matchScore rfC4 jfC4).technical_score = 100 ∧
    (matchScore rfC4 jfC4).keyword_score = 0 :=
  ⟨(c4_dimension_scores rfC4 jfC4).2.2.2.1 rfl,
   (c4_dimension_scores rfC4 jfC4).2.2.2.2.2 rfl⟩

/-! ## Claim C5 -/

/-- C5: the experience score matches the spec's formula, with
`requiredExp=5, resumeExp=5 ↦ 100` and `requiredExp=5, resumeExp=8 ↦ 97.5`. -/
theorem c5_experience_score :
    (∀ r q : Nat, calcExperienceScore r q = specExperienceScore r q) ∧
    calcExperienceScore 5 5 = 100 ∧ calcExperienceScore 8 5 = (97.5 : ℚ) := by
  refine ⟨fun r q => ?_, ?_, ?_⟩
  · unfold calcExperienceScore specExperienceScore
    split_ifs with h1 h2 h3 h4 <;>
      first
        | rfl
        | (exfalso; linarith)
        | (congr 1; ring)
  · norm_num [calcExperienceScore]
  · norm_num [calcExperienceScore]

/-! ## Claim C6 -/

theorem skillDimScore_nonneg (r j : Finset String) : 0 ≤ skillDimScore r j := by
  unfold skillDimScore
  split_ifs
  · norm_num
  · positivity

theorem keywordDimScore_nonneg (r j : Finset String) : 0 ≤ keywordDimScore r j := by
  unfold keywordDimScore
  split_ifs
  · norm_num
  · positivity

theorem calcExperienceScore_nonneg (r q : Nat) : 0 ≤ calcExperienceScore r q := by
  unfold calcExperienceScore
  split_ifs
  · norm_num
  · norm_num
  · exact le_trans (by norm_num) (le_max_left 70 _)
  · exact le_max_left 0 _

theorem calcEducationScore_ge25 (a b : Option String) :
    25 ≤ calcEducationScore a b := by
  unfold calcEducationScore
  cases b with
  | none => norm_num
  | some s =>
    dsimp only
    split_ifs <;> norm_num

theorem calcIndustryAlignment_ge50 (a b : Option String) :
    50 ≤ calcIndustryAlignment a b := by
  unfold calcIndustryAlignment
  cases a with
  | none => norm_num
  | some x =>
    cases b with
    | none => norm_num
    | some y =>
      dsimp only
      split_ifs <;> norm_num

/-- The weighted pre-ATS sum is strictly positive: the education dimension
is at least 25 and the industry dimension at least 50, so the sum is at
least 7.5. -/
theorem weightedSumOf_pos (rf : ResumeFacts) (jf : JobFacts) :
    0 < weightedSumOf rf jf := by
  have h1 := skillDimScore_nonneg rf.technical_skills.toFinset jf.technical_skills.toFinset
  have h2 := skillDimScore_nonneg rf.soft_skills.toFinset jf.soft_skills.toFinset
  have h3 := calcExperienceScore_nonneg rf.experience_years jf.experience_required
  have h4 := calcEducationScore_ge25 rf.education_level jf.education_required
  have h5 := calcIndustryAlignment_ge50 rf.detected_industry jf.industry
  have h6 := keywordDimScore_nonneg rf.keywords.toFinset jf.keywords.toFinset
  unfold weightedSumOf
  linarith

theorem overall_score_eq (rf : ResumeFacts) (jf : JobFacts) :
    (matchScore rf jf).overall_score =
      weightedSumOf rf jf * (0.7 + 0.3 * (rf.ats_compatibility_score / 100)) := rfl

/-- C6: the overall score is the weighted dimension sum rescaled by
`0.7 + 0.3·(atsScore/100)`; with the dimension inputs held fixed it is
unchanged at `atsScore = 100` and strictly increases with the ATS score
(equivalently, strictly decreases as the ATS score decreases). -/
theorem c6_overall_ats (rf : ResumeFacts) (jf : JobFacts) (a1 a2 : ℚ) :
    (matchScore rf jf).overall_score =
      weightedSumOf rf jf * (0.7 + 0.3 * (rf.ats_compatibility_score / 100)) ∧
    (rf.ats_compatibility_score = 100 →
      (matchScore rf jf).overall_score = weightedSumOf rf jf) ∧
    (a1 < a2 →
      (matchScore { rf with ats_compatibility_score := a1 } jf).overall_score <
      (matchScore { rf with ats_compatibility_score := a2 } jf).overall_score) := by
  refine ⟨overall_score_eq rf jf, ?_, ?_⟩
  · intro h
    rw [overall_score_eq rf jf, h]
    norm_num
  · intro h
    rw [overall_score_eq, overall_score_eq]
    have hw1 : weightedSumOf { rf with ats_compatibility_score := a1 } jf =
        weightedSumOf rf jf := rfl
    have hw2 : weightedSumOf { rf with ats_compatibility_score := a2 } jf =
        weightedSumOf rf jf := rfl
    rw [hw1, hw2]
    show weightedSumOf rf jf * (0.7 + 0.3 * (a1 / 100)) <
      weightedSumOf rf jf * (0.7 + 0.3 * (a2 / 100))
    exact mul_lt_mul_of_pos_left (by linarith) (weightedSumOf_pos rf jf)

/-- C6 witness: concrete Facts, ATS 50 versus ATS 100. -/
theorem c6_witness :
    (matchScore { rfC6 with ats_compatibility_score := 50 } jfC6).overall_score <
    (matchScore { rfC6 with ats_compatibility_score := 100 } jfC6).overall_score :=
  (c6_overall_ats rfC6 jfC6 50 100).2.2 (by norm_num)

/-! ## Claim C7 -/

/-- C7: both analyzers fail with `InputTooShort` exactly when the stripped
text length is below 50 (the empty string included), and return complete
Facts otherwise. -/
theorem c7_input_too_short (t : String) :
    (analyzeResume t = .error .inputTooShort ↔ (pyStrip t.toList).length < 50) ∧
    (analyzeJobDescription t = .error .inputTooShort ↔ (pyStrip t.toList).length < 50) ∧
    ((∃ f, analyzeResume t = .ok f) ↔ 50 ≤ (pyStrip t.toList).length) ∧
    ((∃ f, analyzeJobDescription t = .ok f) ↔ 50 ≤ (pyStrip t.toList).length) := by
  by_cases h : (pyStrip t.toList).length < 50
  · have hg : (t.toList.isEmpty || decide ((pyStrip t.toList).length < 50)) = true := by
      rw [decide_eq_true h, Bool.or_true]
    unfold analyzeResume analyzeJobDescription
    rw [if_pos hg, if_pos hg]
    refine ⟨⟨fun _ => h, fun _ => rfl⟩, ⟨fun _ => h, fun _ => rfl⟩, ⟨?_, ?_⟩, ⟨?_, ?_⟩⟩
    · rintro ⟨f, hf⟩
      exact Except.noConfusion hf
    · intro hx
      omega
    · rintro ⟨f, hf⟩
      exact Except.noConfusion hf
    · intro hx
      omega
  · have hne : t.toList.isEmpty = false := by
      cases ht : t.toList with
      | nil => exact absurd (show (pyStrip t.toList).length < 50 by rw [ht]; decide) h
      | cons c cs => rfl
    have hg : (t.toList.isEmpty || decide ((pyStrip t.toList).length < 50)) = false := by
      rw [hne, decide_eq_false h, Bool.or_false]
    unfold analyzeResume analyzeJobDescription
    rw [if_neg (by rw [hg]; exact Bool.false_ne_true),
        if_neg (by rw [hg]; exact Bool.false_ne_true)]
    refine ⟨⟨?_, ?_⟩, ⟨?_, ?_⟩, ⟨fun _ => by omega, fun _ => ⟨_, rfl⟩⟩,
      ⟨fun _ => by omega, fun _ => ⟨_, rfl⟩⟩⟩
    · intro hx
      exact Except.noConfusion hx
    · intro hx
      exact absurd hx h
    · intro hx
      exact Except.noConfusion hx
    · intro hx
      exact absurd hx h

/-- C7 witness: the empty string fails with `InputTooShort`. -/
theorem c7_witness : analyzeResume "" = .error .inputTooShort :=
  (c7_input_too_short "").1.mpr (by decide)

/-! ## Claim C8 -/

/-- C8: the suggestion list never exceeds 10 entries, and whenever fewer
than 7 conditional stage messages fired, its final 3 entries are exactly
the first 3 universal best-practice items, in order. -/
theorem c8_suggestion_bounds (m : MatchResult) (rf : ResumeFacts) (jf : JobFacts) :
    (suggest m rf jf).length ≤ 10 ∧
    ((condMsgs m rf jf).length < 7 →
      (suggest m rf jf).drop ((suggest m rf jf).length - 3) =
        [Suggestion.universal1, Suggestion.universal2, Suggestion.universal3]) := by
  constructor
  · unfold suggest
    rw [List.length_take]
    exact min_le_left _ _
  · intro h
    have hlen : (suggestFull m rf jf).length = (condMsgs m rf jf).length + 4 := by
      unfold suggestFull
      simp [universalSuggestions]
    have hfull : suggest m rf jf = suggestFull m rf jf := by
      unfold suggest
      apply List.take_of_length_le
      omega
    have hsplit : suggestFull m rf jf =
        (condMsgs m rf jf ++ [strengthMsg m.match_strength]) ++
          [Suggestion.universal1, Suggestion.universal2, Suggestion.universal3] := by
      unfold suggestFull
      rfl
    rw [hfull, hlen]
    have hidx : (condMsgs m rf jf).length + 4 - 3 =
        (condMsgs m rf jf ++ [strengthMsg m.match_strength]).length := by
      simp
    rw [hidx, hsplit]
    exact List.drop_left _ _

/-- C8 witness: a concrete high-scoring match fires no conditional stage;
the list ends with the first three universal items. -/
theorem c8_witness :
    (condMsgs mC8 rfC8 jfC8).length < 7 ∧
    (suggest mC8 rfC8 jfC8).drop ((suggest mC8 rfC8 jfC8).length - 3) =
      [Suggestion.universal1, Suggestion.universal2, Suggestion.universal3] :=
  ⟨by decide, (c8_suggestion_bounds mC8 rfC8 jfC8).2 (by decide)⟩

/-! ## Claim C9 -/

/-- C9: the ATS score equals the spec's closed formula and always lies in
`[0, 100]`. -/
theorem c9_ats_formula (t : List Char) :
    atsCompatibility t = specAtsScore t ∧
    0 ≤ atsCompatibility t ∧ atsCompatibility t ≤ 100 := by
  have hfound : ((standardSections.filter fun sec =>
      containsSub sec.toList (lowerL t)).length) ≤ 4 := by
    have h := List.length_filter_le (fun sec => containsSub sec.toList (lowerL t))
      standardSections
    simpa [standardSections] using h
  have hfoundq : (((standardSections.filter fun sec =>
      containsSub sec.toList (lowerL t)).length : Nat) : ℚ) ≤ 4 := by
    exact_mod_cast hfound
  refine ⟨?_, ?_, ?_⟩
  · unfold atsCompatibility specAtsScore
    dsimp only
    norm_num [standardSections]
    split_ifs <;> (congr 1 <;> ring)
  · unfold atsCompatibility
    dsimp only
    exact le_max_left 0 _
  · unfold atsCompatibility
    dsimp only
    apply max_le (by norm_num)
    have hlen4 : ((standardSections.length : Nat) : ℚ) = 4 := by
      norm_num [standardSections]
    rw [hlen4]
    split_ifs <;> linarith [hfoundq]

/-! ## Claim C10 -/

/-- C10: in every MatchResult the experience gap and surplus are
nonnegative and never simultaneously positive. -/
theorem c10_gap_surplus (rf : ResumeFacts) (jf : JobFacts) :
    0 ≤ (matchScore rf jf).experience_gap ∧
    0 ≤ (matchScore rf jf).experience_surplus ∧
    ((matchScore rf jf).experience_gap = 0 ∨
      (matchScore rf jf).experience_surplus = 0) := by
  refine ⟨le_max_left _ _, le_max_left _ _, ?_⟩
  rcases le_total ((jf.experience_required : ℤ)) ((rf.experience_years : ℤ)) with h | h
  · left
    exact max_eq_left (by linarith)
  · right
    exact max_eq_left (by linarith)

/-! ## Quick sanity examples -/

example : reSearchWord "javascript".toList "uses javascript daily".toList = true := by decide
example : reSearchWord "javascript".toList "typescript only".toList = false := by decide
example : reSearchWord "c++".toList "knows c++ well".toList = false := by decide
example : occursStandalone "c++".toList "knows c++ well".toList = true := by decide
example : analyzeExperienceYears "over 3 years and 5 years of experience".toList = 5 := by decide
example : extractRequiredExperience "minimum 3 years and 5 years of experience".toList = 3 := by decide
example : analyzeExperienceYears "no numbers here".toList = 0 := by decide
